import Mathlib

/-!
Verification of the resource-lifetime and transactional-validity core of the
duckdb repository slice: the AttachedDatabase lifecycle (destructor-time
checkpoint, sub-system initialization order, database-name extraction), the
CommonSubExpression planner node, and the Connection / PreparedStatement /
Transaction validity state machine described by the specification.

Definitions in the first half are shallow embeddings translated directly from
the C++ source (attached_database.cpp and common_subexpression.hpp); the
Connection / PreparedStatement machinery is visible in the repository only
through its API tests, so it is modelled from the specification, with each
such definition marked in its doc comment.
-/

/- ===================== AttachedDatabase: from the source ================= -/

/-- State read by the destructor AttachedDatabase::~AttachedDatabase: whether
the destructor runs while unwinding from an uncaught exception
(Exception::UncaughtException()), whether the storage manager is purely
in-memory (storage->InMemory()), and the configuration flag
checkpoint_on_shutdown (DBConfig::GetConfig(db).options). -/
structure DtorState where
  uncaughtException : Bool
  inMemory : Bool
  checkpoint_on_shutdown : Bool
  deriving DecidableEq

/-- Body of the try block inside AttachedDatabase::~AttachedDatabase. The
behaviour of the external collaborator call storage->CreateCheckpoint(true)
is passed in as an Except value (it may raise). Returns the number of
CreateCheckpoint invocations performed together with the control-flow
outcome of the block. -/
def dtorTryBlock (s : DtorState) (createCheckpoint : Except String Unit) :
    Nat × Except String Unit :=
  if !s.inMemory then
    if !s.checkpoint_on_shutdown then (0, Except.ok ())
    else (1, createCheckpoint)
  else (0, Except.ok ())

/-- Shallow embedding of AttachedDatabase::~AttachedDatabase: an early
return when Exception::UncaughtException() holds, otherwise the try block
runs and a catch-all handler with an empty body swallows any exception it
raised. The result is the number of checkpoint attempts made and the
exception escaping the destructor, if any. -/
def attachedDatabaseDtor (s : DtorState) (createCheckpoint : Except String Unit) :
    Nat × Option String :=
  if s.uncaughtException then (0, none)
  else
    match dtorTryBlock s createCheckpoint with
    | (n, Except.ok _) => (n, none)
    | (n, Except.error _) => (n, none)

/-- Modelled from the spec: FileSystem::ExtractBaseName is an external
collaborator whose source is not in the visible slice; the spec describes
the derived attachment name as the base name of the file path. The base name is
modelled as the final path component truncated at its first dot. -/
def extractBaseName (path : String) : String :=
  let lastComponent := (path.splitOn ("/")).getLastD path
  (lastComponent.splitOn (".")).headD lastComponent

/-- Shallow embedding of AttachedDatabase::ExtractDatabaseName: an empty
path or the literal path ":memory:" yields the name "memory", any other
path yields its base name. -/
def ExtractDatabaseName (dbpath : String) : String :=
  if dbpath.isEmpty || dbpath = (":memory:") then ("memory")
  else extractBaseName dbpath

/-- Sub-system steps invoked by the AttachedDatabase lifecycle, used to
record the order of calls. -/
inductive InitStep where
  | catalogStep
  | storageStep
  deriving DecidableEq

/-- Shallow embedding of the AttachedDatabase initialization member
function: it first calls catalog->Initialize(false) and then
storage->Initialize(); either call may raise, and a raised error propagates
immediately. The result records the trace of sub-system steps actually
performed and the overall outcome. -/
def attachedDatabaseInitRun (catalogCall storageCall : Except String Unit) :
    List InitStep × Except String Unit :=
  match catalogCall with
  | Except.error e => ([InitStep.catalogStep], Except.error e)
  | Except.ok _ =>
    match storageCall with
    | Except.error e => ([InitStep.catalogStep, InitStep.storageStep], Except.error e)
    | Except.ok _ => ([InitStep.catalogStep, InitStep.storageStep], Except.ok ())

/- ===================== CommonSubExpression: from the source ============== -/

/-- Properties of a bound Expression node relevant here: the virtual
IsScalar and IsFoldable predicates that Expression subclasses override. -/
structure ExpressionProps where
  isScalar : Bool
  isFoldable : Bool
  deriving DecidableEq

/-- Shallow embedding of the CommonSubExpression planner node: a child
expression of arbitrary properties plus an alias string. CSEs are only
generated by the optimizers. -/
structure CommonSubExpression where
  child : ExpressionProps
  aliasName : String
  deriving DecidableEq

/-- Embedding of the override CommonSubExpression::IsScalar() const, which
returns false unconditionally. -/
def CommonSubExpression.IsScalar (_ : CommonSubExpression) : Bool := false

/-- Embedding of the override CommonSubExpression::IsFoldable() const, which
returns false unconditionally. -/
def CommonSubExpression.IsFoldable (_ : CommonSubExpression) : Bool := false

/- ============ Connection / PreparedStatement: modelled from the spec ===== -/

/-- Transaction identifiers. -/
abbrev TxId := Nat

/-- Modelled from the spec: the transaction status state machine of the
TransactionManager (whose source is not in the visible slice):
Active transitions to Committed or RolledBack, both terminal. -/
inductive TxStatus where
  | Active
  | Committed
  | RolledBack
  deriving DecidableEq

/-- Modelled from the spec: a catalog entry with a name, transaction-scoped
ownership (none means committed base state) and an invalidation flag that
is checked lazily by every holder of a reference to the entry. -/
structure CatalogEntry where
  name : String
  owning_transaction_id : Option TxId
  invalidated : Bool
  deriving DecidableEq

/-- SQL values passed as Execute arguments, restricted to the kinds the
visible API tests use. -/
inductive SQLValue where
  | vint (i : Int)
  | vstr (s : String)
  | vnull
  deriving DecidableEq

/-- Declared parameter types of a prepared statement. -/
inductive LType where
  | tinyint
  | integer
  | varchar
  deriving DecidableEq

/-- Modelled from the spec: the implicit-cast check of one argument against
one declared parameter type (numeric range checks and string coercion per
the host type system). -/
def coercible : SQLValue → LType → Bool
  | SQLValue.vnull, _ => true
  | SQLValue.vint i, LType.tinyint => decide (-128 ≤ i ∧ i ≤ 127)
  | SQLValue.vint i, LType.integer => decide (-2147483648 ≤ i ∧ i ≤ 2147483647)
  | SQLValue.vint _, LType.varchar => false
  | SQLValue.vstr _, LType.varchar => true
  | SQLValue.vstr _, LType.tinyint => false
  | SQLValue.vstr _, LType.integer => false

/-- Modelled from the spec: an argument list type-checks when each argument
is coercible to its corresponding declared parameter type. -/
def argsTypeCheck (args : List SQLValue) (tys : List LType) : Bool :=
  (args.zip tys).all (fun a => coercible a.1 a.2)

/-- Modelled from the spec: a compiled PreparedStatement: registry name, sql
text, parameter count and types, the catalog-entry names the bound plan
depends on, the transaction active at creation time if any, and the
compilation outcome (success flag plus captured error). -/
structure PreparedStatement where
  name : String
  sql_text : String
  parameter_count : Nat
  parameter_types : List LType
  dependencies : List String
  creation_transaction_id : Option TxId
  success : Bool
  error : Option String
  deriving DecidableEq

/-- Modelled from the spec: the per-connection state: the registry mapping
statement names to prepared statements, and the current Active transaction
if one is open. -/
structure ConnState where
  registry : List (String × PreparedStatement)
  current_transaction : Option TxId
  deriving DecidableEq

/-- Modelled from the spec: the world visible to the prepared-statement
lifecycle. The owning Connection sits behind a weak handle (none once the
Connection has been destroyed, so a dead owner is detected by a liveness
check and never dereferenced), the AttachedDatabase has a liveness flag,
and the catalog and transaction statuses are explicit. -/
structure World where
  conn : Option ConnState
  dbAlive : Bool
  catalog : List CatalogEntry
  txStatus : List (TxId × TxStatus)
  deriving DecidableEq

/-- Modelled from the spec: name resolution in the catalog; an entry whose
invalidated flag is set is removed from name-resolution visibility and is
never resolved again. -/
def resolveEntry (cat : List CatalogEntry) (nm : String) : Option CatalogEntry :=
  cat.find? (fun e => e.name == nm && !e.invalidated)

/-- Modelled from the spec: the catalog part of the validity predicate of a
prepared statement: every catalog entry the bound plan depends on still
resolves, un-invalidated. -/
def planDepsValid (w : World) (deps : List String) : Bool :=
  deps.all (fun d => (resolveEntry w.catalog d).isSome)

/-- Modelled from the spec: the errors an Execute call can surface. -/
inductive ExecError where
  | CompileError (msg : String)
  | ParameterCountError
  | TypeError
  | InvalidatedStatementError
  | NotFoundError
  deriving DecidableEq

/-- Result of one Execute call: its outcome, the number of catalog lookups
the call performed, and the world after the call. -/
structure ExecResult where
  outcome : Except ExecError Unit
  catalogLookups : Nat
  world : World

/-- Modelled from the spec: Execute on a PreparedStatement. A Failed
statement repeats its captured compile-time error without re-attempting
compilation; then the argument count is validated against parameter_count;
then each argument is type-checked; then the validity predicate is
re-checked (owning connection resolves, database alive, no referenced
catalog entry invalidated), which is the only step that performs catalog
lookups; only then does the bound plan run. No failing call mutates the
world. -/
def Execute (w : World) (p : PreparedStatement) (args : List SQLValue) : ExecResult :=
  if p.success = false then
    ⟨Except.error (ExecError.CompileError (p.error.getD ("unknown error"))), 0, w⟩
  else if args.length ≠ p.parameter_count then
    ⟨Except.error ExecError.ParameterCountError, 0, w⟩
  else if argsTypeCheck args p.parameter_types = false then
    ⟨Except.error ExecError.TypeError, 0, w⟩
  else
    match w.conn with
    | none => ⟨Except.error ExecError.InvalidatedStatementError, 0, w⟩
    | some _ =>
      if w.dbAlive = false then
        ⟨Except.error ExecError.InvalidatedStatementError, 0, w⟩
      else if planDepsValid w p.dependencies = false then
        ⟨Except.error ExecError.InvalidatedStatementError, p.dependencies.length, w⟩
      else
        ⟨Except.ok (), p.dependencies.length, w⟩

/-- Modelled from the spec: Rollback of transaction t: every catalog entry
with owning_transaction_id equal to t has its invalidated flag set (which
also removes it from name-resolution visibility), the transaction status
becomes RolledBack, and a connection whose current transaction was t no
longer has an open transaction. -/
def Rollback (w : World) (t : TxId) : World :=
  { w with
    catalog := w.catalog.map (fun e =>
      if e.owning_transaction_id = some t then { e with invalidated := true } else e),
    txStatus := w.txStatus.map (fun st =>
      if st.1 = t then (t, TxStatus.RolledBack) else st),
    conn :=
      match w.conn with
      | none => none
      | some c =>
        some { c with current_transaction :=
          if c.current_transaction = some t then none else c.current_transaction } }

/-- Modelled from the spec: Connection destruction: a still Active
transaction is rolled back first, then the connection is dropped, so the
weak owner handle of every PreparedStatement it created no longer
resolves. -/
def DestroyConnection (w : World) : World :=
  match w.conn with
  | none => w
  | some c =>
    let w1 :=
      match c.current_transaction with
      | some t => Rollback w t
      | none => w
    { w1 with conn := none }

/-- Modelled from the spec: destruction of the AttachedDatabase the
connection is bound to: the database liveness flag is cleared. -/
def DestroyDatabase (w : World) : World :=
  { w with dbAlive := false }

/-- Single-quote character, used by the literal scanner. -/
def singleQuote : Char := Char.ofNat 39

/-- Double-quote character, used by the literal scanner. -/
def doubleQuote : Char := Char.ofNat 34

/-- Modelled from the spec: a scanner that detects a statement-separating
delimiter outside of string or identifier literals. The scanner state is
the active quote character, if any. -/
def scanDelim : List Char → Option Char → Bool
  | [], _ => false
  | c :: rest, some q =>
    if c = q then scanDelim rest none else scanDelim rest (some q)
  | c :: rest, none =>
    if c = ';' then true
    else if c = singleQuote || c = doubleQuote then scanDelim rest (some c)
    else scanDelim rest none

/-- Modelled from the spec: presence of a statement-separating delimiter
outside of string or identifier literals in the sql text. -/
def hasTopLevelDelimiter (sql : String) : Bool :=
  scanDelim sql.data none

/-- Modelled from the spec: outcome of parsing and binding a single
statement against the catalog state visible to the connection; parsing and
binding are external collaborators, so their verdict is a parameter. -/
inductive BindOutcome where
  | parseError (msg : String)
  | bindError (msg : String)
  | bound (paramTypes : List LType) (deps : List String)
  deriving DecidableEq

/-- Modelled from the spec: the PreparedStatement returned when compilation
fails: success = false with the error captured; it has no parameters and no
dependencies and is bound to no transaction. -/
def failedStatement (nm sql msg : String) : PreparedStatement :=
  ⟨nm, sql, 0, [], [], none, false, some msg⟩

/-- Modelled from the spec: Connection Prepare(sql). A dead connection or
database yields a failed statement; a statement-separating delimiter
outside literals is a hard error at prepare time; a parse or bind error is
captured on the returned statement instead of being thrown; on success the
statement records the current Active transaction and is registered under
its name in the registry of the connection. -/
def Prepare (w : World) (bind : String → BindOutcome) (nm sql : String) :
    World × PreparedStatement :=
  match w.conn with
  | none => (w, failedStatement nm sql ("connection has been closed"))
  | some c =>
    if w.dbAlive = false then
      (w, failedStatement nm sql ("database has been closed"))
    else if hasTopLevelDelimiter sql then
      (w, failedStatement nm sql ("cannot prepare multiple statements at once"))
    else
      match bind sql with
      | BindOutcome.parseError m => (w, failedStatement nm sql m)
      | BindOutcome.bindError m => (w, failedStatement nm sql m)
      | BindOutcome.bound tys deps =>
        let p : PreparedStatement :=
          ⟨nm, sql, tys.length, tys, deps, c.current_transaction, true, none⟩
        ({ w with conn := some { c with registry := (nm, p) :: c.registry } }, p)

/-- Modelled from the spec: dropping a PreparedStatement (explicit release,
or its destructor having run) removes its name from the registry of the
owning connection and changes nothing else. -/
def ReleaseStatement (w : World) (nm : String) : World :=
  match w.conn with
  | none => w
  | some c =>
    { w with conn := some { c with registry := c.registry.filter (fun kv => !(kv.1 == nm)) } }

/-- Modelled from the spec: named re-execution EXECUTE name(args): the
PreparedStatement is resolved by name in the registry of the connection; an
unknown name fails with a not-found error and no statement is
resurrected. -/
def ExecuteNamed (w : World) (nm : String) (args : List SQLValue) : ExecResult :=
  match w.conn with
  | none => ⟨Except.error ExecError.InvalidatedStatementError, 0, w⟩
  | some c =>
    match c.registry.find? (fun kv => kv.1 == nm) with
    | none => ⟨Except.error ExecError.NotFoundError, 0, w⟩
    | some kv => Execute w kv.2 args

/- ===================== Concrete fixtures for witnesses =================== -/

/-- Example catalog entry: a table named a created under transaction 1. -/
def entryA : CatalogEntry := ⟨"a", some 1, false⟩

/-- Example connection with an empty registry inside transaction 1. -/
def connEx : ConnState := ⟨[], some 1⟩

/-- Example world: a live connection inside Active transaction 1 on a live
database whose catalog holds the table a created under transaction 1. -/
def wEx : World := ⟨some connEx, true, [entryA], [(1, TxStatus.Active)]⟩

/-- Example successfully prepared single-parameter statement over table a,
created while transaction 1 was Active. -/
def pEx : PreparedStatement :=
  ⟨"p1", "SELECT COUNT(*) FROM a WHERE i=$1", 1, [LType.tinyint], ["a"], some 1, true, none⟩

/-- Example successfully prepared two-parameter statement over table a. -/
def pEx2 : PreparedStatement :=
  ⟨"p2", "SELECT COUNT(*) FROM a WHERE i=$1 AND i>$2", 2, [LType.tinyint, LType.tinyint],
    ["a"], some 1, true, none⟩

/-- Example connection whose registry holds pEx under its name, with no open
transaction. -/
def connEx7 : ConnState := ⟨[("p1", pEx)], none⟩

/-- Example world for named execution: a live connection with pEx registered
on a live database with table a committed. -/
def wEx7 : World := ⟨some connEx7, true, [⟨"a", none, false⟩], []⟩

/-- Example binder verdict that always reports a parse error, standing for
the parser rejecting a misspelled keyword. -/
def bindParseErrEx : String → BindOutcome :=
  fun _ => BindOutcome.parseError ("syntax error at or near SELEC")

/- ======================= Theorems: source-backed claims ================== -/

/-- C3: on release of the last reference to an AttachedDatabase, a shutdown
checkpoint is attempted if and only if the storage is not purely in-memory,
checkpoint_on_shutdown is enabled, and the teardown is not unwinding from
an already-in-flight failure; and at most one attempt is ever made, so when
all three hold exactly one checkpoint attempt occurs. -/
theorem C3_shutdown_checkpoint_iff (s : DtorState) (cc : Except String Unit) :
    ((attachedDatabaseDtor s cc).1 = 1 ↔
      s.uncaughtException = false ∧ s.inMemory = false ∧ s.checkpoint_on_shutdown = true)
    ∧ (attachedDatabaseDtor s cc).1 ≤ 1 := by
  rcases s with ⟨u, m, c⟩
  cases u <;> cases m <;> cases c <;> cases cc <;>
    simp [attachedDatabaseDtor, dtorTryBlock]

/-- C4: the destructor-time checkpoint path never lets an error escape: for
every destructor state and every behaviour of CreateCheckpoint, including a
raising one, the teardown completes with no propagated exception. -/
theorem C4_shutdown_swallows_errors (s : DtorState) (cc : Except String Unit) :
    (attachedDatabaseDtor s cc).2 = none := by
  rcases s with ⟨u, m, c⟩
  cases u <;> cases m <;> cases c <;> cases cc <;>
    simp [attachedDatabaseDtor, dtorTryBlock]

/-- C8: the logical name of an attached database is the literal "memory"
exactly when the path is empty or the literal ":memory:", and the base name
of the file path otherwise. -/
theorem C8_extract_database_name (dbpath : String) :
    ExtractDatabaseName dbpath =
      if dbpath = "" ∨ dbpath = (":memory:") then ("memory")
      else extractBaseName dbpath := by
  unfold ExtractDatabaseName
  rcases eq_or_ne dbpath "" with h | h
  · subst h; simp [String.isEmpty_iff]
  · rcases eq_or_ne dbpath (":memory:") with h2 | h2
    · subst h2; simp
    · simp [String.isEmpty_iff, h, h2]

/-- C9: the AttachedDatabase initialization sequence runs the catalog step
strictly before the storage step: a catalog failure propagates with the
storage step never attempted, and when the catalog step succeeds the trace
is exactly catalog first, then storage. -/
theorem C9_init_order (e : String) (storageCall : Except String Unit) :
    attachedDatabaseInitRun (Except.error e) storageCall
        = ([InitStep.catalogStep], Except.error e)
    ∧ (attachedDatabaseInitRun (Except.ok ()) storageCall).1
        = [InitStep.catalogStep, InitStep.storageStep] := by
  refine ⟨rfl, ?_⟩
  cases storageCall <;> rfl

/-- C10: a CommonSubExpression node reports IsScalar() = false and
IsFoldable() = false regardless of the properties of its child
expression. -/
theorem C10_cse_not_scalar_not_foldable (cse : CommonSubExpression) :
    cse.IsScalar = false ∧ cse.IsFoldable = false :=
  ⟨rfl, rfl⟩

/- ================== Helper lemmas about the execution model ============== -/

/-- Characterization of a successful Execute: all five gates must pass. -/
theorem Execute_ok_iff (w : World) (p : PreparedStatement) (args : List SQLValue) :
    (Execute w p args).outcome = Except.ok () ↔
      p.success = true ∧ args.length = p.parameter_count
      ∧ argsTypeCheck args p.parameter_types = true
      ∧ w.conn.isSome = true ∧ w.dbAlive = true
      ∧ planDepsValid w p.dependencies = true := by
  unfold Execute
  rcases hc : w.conn with _ | c <;>
    by_cases h1 : p.success = false <;>
    by_cases h2 : args.length = p.parameter_count <;>
    by_cases h3 : argsTypeCheck args p.parameter_types = false <;>
    by_cases h4 : w.dbAlive = false <;>
    by_cases h5 : planDepsValid w p.dependencies = false <;>
      simp_all

/-- Execution in a world whose owning connection no longer resolves or whose
database is no longer alive: the call never succeeds, and whenever the
argument list passes the local shape checks the reported error is the
invalidated-statement error. -/
theorem execute_dead_owner (w : World) (p : PreparedStatement) (args : List SQLValue)
    (hdead : w.conn = none ∨ w.dbAlive = false) (hp : p.success = true) :
    (Execute w p args).outcome ≠ Except.ok ()
    ∧ (args.length = p.parameter_count → argsTypeCheck args p.parameter_types = true →
        (Execute w p args).outcome = Except.error ExecError.InvalidatedStatementError) := by
  constructor
  · intro hok
    rcases (Execute_ok_iff w p args).mp hok with ⟨-, -, -, hcs, hdb, -⟩
    rcases hdead with h | h
    · rw [h] at hcs; exact Bool.false_ne_true hcs
    · rw [h] at hdb; exact Bool.false_ne_true hdb
  · intro hlen hty
    rcases hdead with h | h
    · simp [Execute, hp, hlen, hty, h]
    · rcases hc : w.conn with _ | c <;> simp [Execute, hp, hlen, hty, h, hc]

/- =================== Theorems: spec-modelled claims ====================== -/

/-- C1: after the Connection that created a successfully prepared statement
is destroyed, or after the AttachedDatabase the connection was bound to is
destroyed, Execute on the statement never succeeds, and whenever the
arguments pass the local shape checks it fails with the
invalidated-statement error; the dead owner is detected through the weak
handle (an Option, so a dead reference is never dereferenced). -/
theorem C1_execute_after_owner_destroyed (w : World) (p : PreparedStatement)
    (args : List SQLValue) (hp : p.success = true) :
    ((Execute (DestroyConnection w) p args).outcome ≠ Except.ok ()
      ∧ (args.length = p.parameter_count → argsTypeCheck args p.parameter_types = true →
          (Execute (DestroyConnection w) p args).outcome
            = Except.error ExecError.InvalidatedStatementError))
    ∧ ((Execute (DestroyDatabase w) p args).outcome ≠ Except.ok ()
      ∧ (args.length = p.parameter_count → argsTypeCheck args p.parameter_types = true →
          (Execute (DestroyDatabase w) p args).outcome
            = Except.error ExecError.InvalidatedStatementError)) := by
  have hcn : (DestroyConnection w).conn = none := by
    rcases hw : w.conn with _ | c <;> simp [DestroyConnection, hw]
  exact ⟨execute_dead_owner _ p args (Or.inl hcn) hp,
         execute_dead_owner _ p args (Or.inr rfl) hp⟩

/-- C1 witness: executing the concrete statement pEx with a well-shaped
argument after destroying its connection, and after destroying the
database, fails with the invalidated-statement error. -/
theorem C1_witness :
    (Execute (DestroyConnection wEx) pEx [SQLValue.vint 12]).outcome
      = Except.error ExecError.InvalidatedStatementError
    ∧ (Execute (DestroyDatabase wEx) pEx [SQLValue.vint 12]).outcome
      = Except.error ExecError.InvalidatedStatementError :=
  ⟨(C1_execute_after_owner_destroyed wEx pEx [SQLValue.vint 12] rfl).1.2 rfl (by decide),
   (C1_execute_after_owner_destroyed wEx pEx [SQLValue.vint 12] rfl).2.2 rfl (by decide)⟩

/-- Rollback keeps the connection resolvable when it was resolvable. -/
theorem Rollback_conn_some (w : World) (c : ConnState) (t : TxId) (hconn : w.conn = some c) :
    (Rollback w t).conn = some { c with current_transaction :=
      if c.current_transaction = (some t) then none else c.current_transaction } := by
  simp [Rollback, hconn]

/-- Name resolution after Rollback t: a name all of whose catalog entries
are already invalidated or owned by t no longer resolves. -/
theorem resolveEntry_after_rollback (w : World) (t : TxId) (nm : String)
    (hown : ∀ e ∈ w.catalog, e.name = nm →
      e.invalidated = true ∨ e.owning_transaction_id = some t) :
    resolveEntry (Rollback w t).catalog nm = none := by
  apply List.find?_eq_none.mpr
  intro x hx
  simp only [Rollback] at hx
  rcases List.mem_map.mp hx with ⟨e, he, hfe⟩
  by_cases hn : e.name = nm
  · rcases hown e he hn with hinv | howned
    · subst hfe
      by_cases ho : e.owning_transaction_id = some t <;> simp [ho, hinv]
    · subst hfe; simp [howned]
  · subst hfe
    by_cases ho : e.owning_transaction_id = some t <;> simp [ho, hn]

/-- A dependency list containing a non-resolving name fails the catalog part
of the validity predicate. -/
theorem planDepsValid_false_of_dep (w : World) (deps : List String) (nm : String)
    (hdep : nm ∈ deps) (hres : resolveEntry w.catalog nm = none) :
    planDepsValid w deps = false := by
  apply Bool.eq_false_iff.mpr
  intro hall
  have hnm := List.all_eq_true.mp hall nm hdep
  simp [hres] at hnm

/-- C2: a successfully prepared statement that depends on a catalog entry
created under transaction t fails every well-shaped Execute with the
invalidated-statement error once t is rolled back; the failing call leaves
the world unchanged, so executing again in the resulting world gives the
very same failing result; and no Execute on the statement ever succeeds
after the rollback. -/
theorem C2_execute_after_rollback (w : World) (c : ConnState) (t : TxId)
    (p : PreparedStatement) (args : List SQLValue) (nm : String)
    (hp : p.success = true) (hconn : w.conn = some c) (hdb : w.dbAlive = true)
    (hdep : nm ∈ p.dependencies)
    (hown : ∀ e ∈ w.catalog, e.name = nm →
      e.invalidated = true ∨ e.owning_transaction_id = some t)
    (hlen : args.length = p.parameter_count)
    (hty : argsTypeCheck args p.parameter_types = true) :
    (Execute (Rollback w t) p args).outcome = Except.error ExecError.InvalidatedStatementError
    ∧ (Execute (Rollback w t) p args).world = Rollback w t
    ∧ Execute ((Execute (Rollback w t) p args).world) p args = Execute (Rollback w t) p args
    ∧ ∀ args2, (Execute (Rollback w t) p args2).outcome ≠ Except.ok () := by
  have hres : resolveEntry (Rollback w t).catalog nm = none :=
    resolveEntry_after_rollback w t nm hown
  have hpd : planDepsValid (Rollback w t) p.dependencies = false :=
    planDepsValid_false_of_dep (Rollback w t) p.dependencies nm hdep hres
  have hc2 := Rollback_conn_some w c t hconn
  have hdb2 : (Rollback w t).dbAlive = true := hdb
  have hexec : Execute (Rollback w t) p args =
      ⟨Except.error ExecError.InvalidatedStatementError, p.dependencies.length,
        Rollback w t⟩ := by
    unfold Execute
    rw [hc2]
    simp [hp, hlen, hty, hpd, hdb2]
  refine ⟨by rw [hexec], by rw [hexec], by rw [hexec]; exact hexec, ?_⟩
  intro args2 hok
  rcases (Execute_ok_iff _ p args2).mp hok with ⟨-, -, -, -, -, hpd2⟩
  rw [hpd] at hpd2
  exact Bool.false_ne_true hpd2

/-- C2 witness: the concrete statement pEx, prepared while transaction 1 was
Active over the table a created under transaction 1, fails with the
invalidated-statement error after Rollback of transaction 1, and repeating
the call yields the identical result. -/
theorem C2_witness :
    (Execute (Rollback wEx 1) pEx [SQLValue.vint 12]).outcome
      = Except.error ExecError.InvalidatedStatementError
    ∧ Execute ((Execute (Rollback wEx 1) pEx [SQLValue.vint 12]).world) pEx [SQLValue.vint 12]
      = Execute (Rollback wEx 1) pEx [SQLValue.vint 12] :=
  ⟨(C2_execute_after_rollback wEx connEx 1 pEx [SQLValue.vint 12] ("a") rfl rfl rfl
      (by decide) (by decide) rfl (by decide)).1,
   (C2_execute_after_rollback wEx connEx 1 pEx [SQLValue.vint 12] ("a") rfl rfl rfl
      (by decide) (by decide) rfl (by decide)).2.2.1⟩

/-- C5: when Prepare fails on a live connection and database — the sql text
holds a statement-separating delimiter outside literals, or the parser or
the binder reports an error — it returns (Prepare is a total function, it
never throws) a statement with success = false and a populated error, the
world is unchanged so nothing was registered, and every later Execute of
that statement, in any world and with any arguments, repeats the captured
compile-time error with zero catalog lookups and no world mutation, hence
with no re-compilation and no partial execution. -/
theorem C5_prepare_failure (w : World) (c : ConnState) (bind : String → BindOutcome)
    (nm sql : String) (hconn : w.conn = some c) (hdb : w.dbAlive = true)
    (hfail : hasTopLevelDelimiter sql = true
      ∨ (∃ m, bind sql = BindOutcome.parseError m)
      ∨ (∃ m, bind sql = BindOutcome.bindError m)) :
    (Prepare w bind nm sql).1 = w
    ∧ (Prepare w bind nm sql).2.success = false
    ∧ (Prepare w bind nm sql).2.error.isSome = true
    ∧ ∀ w2 args, Execute w2 (Prepare w bind nm sql).2 args =
        ⟨Except.error (ExecError.CompileError
            (((Prepare w bind nm sql).2.error).getD ("unknown error"))), 0, w2⟩ := by
  have hps : ∃ m, Prepare w bind nm sql = (w, failedStatement nm sql m) := by
    rcases hfail with hdelim | ⟨m, hm⟩ | ⟨m, hm⟩
    · exact ⟨("cannot prepare multiple statements at once"),
        by simp [Prepare, hconn, hdb, hdelim]⟩
    · by_cases hdelim : hasTopLevelDelimiter sql = true
      · exact ⟨("cannot prepare multiple statements at once"),
          by simp [Prepare, hconn, hdb, hdelim]⟩
      · exact ⟨m, by simp [Prepare, hconn, hdb, hdelim, hm]⟩
    · by_cases hdelim : hasTopLevelDelimiter sql = true
      · exact ⟨("cannot prepare multiple statements at once"),
          by simp [Prepare, hconn, hdb, hdelim]⟩
      · exact ⟨m, by simp [Prepare, hconn, hdb, hdelim, hm]⟩
  rcases hps with ⟨m, hm⟩
  rw [hm]
  refine ⟨rfl, rfl, rfl, ?_⟩
  intro w2 args
  simp [Execute, failedStatement]

/-- C5 witness: preparing the misspelled query through a binder that reports
a parse error yields a failed statement whose Execute repeats the captured
error without touching the world. -/
theorem C5_witness :
    (Prepare wEx7 bindParseErrEx ("p3") ("SELEC COUNT(*) FROM a WHERE i=$1")).2.success = false
    ∧ Execute wEx7 (Prepare wEx7 bindParseErrEx ("p3") ("SELEC COUNT(*) FROM a WHERE i=$1")).2
        [SQLValue.vint 12]
      = ⟨Except.error (ExecError.CompileError
          (((Prepare wEx7 bindParseErrEx ("p3")
              ("SELEC COUNT(*) FROM a WHERE i=$1")).2.error).getD ("unknown error"))),
         0, wEx7⟩ :=
  ⟨(C5_prepare_failure wEx7 connEx7 bindParseErrEx ("p3") ("SELEC COUNT(*) FROM a WHERE i=$1")
      rfl rfl (Or.inr (Or.inl ⟨("syntax error at or near SELEC"), rfl⟩))).2.1,
   (C5_prepare_failure wEx7 connEx7 bindParseErrEx ("p3") ("SELEC COUNT(*) FROM a WHERE i=$1")
      rfl rfl (Or.inr (Or.inl ⟨("syntax error at or near SELEC"), rfl⟩))).2.2.2
      wEx7 [SQLValue.vint 12]⟩

/-- C6: an Execute whose argument count differs from parameter_count on a
successfully prepared statement fails with the parameter-count error,
performs zero catalog lookups, and returns the world unchanged: no catalog,
transaction, or registry state is mutated by the failed call. -/
theorem C6_arity_mismatch (w : World) (p : PreparedStatement) (args : List SQLValue)
    (hp : p.success = true) (hlen : args.length ≠ p.parameter_count) :
    Execute w p args = ⟨Except.error ExecError.ParameterCountError, 0, w⟩ := by
  simp [Execute, hp, hlen]

/-- C6 witness: the two-parameter statement pEx2 rejects one argument (too
few) and three arguments (too many) with the parameter-count error, no
catalog lookups and an unchanged world. -/
theorem C6_witness :
    Execute wEx7 pEx2 [SQLValue.vint 11]
      = ⟨Except.error ExecError.ParameterCountError, 0, wEx7⟩
    ∧ Execute wEx7 pEx2 [SQLValue.vint 11, SQLValue.vint 13, SQLValue.vint 17]
      = ⟨Except.error ExecError.ParameterCountError, 0, wEx7⟩ :=
  ⟨C6_arity_mismatch wEx7 pEx2 [SQLValue.vint 11] rfl (by decide),
   C6_arity_mismatch wEx7 pEx2 [SQLValue.vint 11, SQLValue.vint 13, SQLValue.vint 17]
     rfl (by decide)⟩

/-- C7: named re-execution resolves the statement by name in the registry of
the connection; after the name has been dropped by ReleaseStatement
(explicit release, or the statement destructor having run), named execution
fails with the not-found error, performs no catalog lookup and returns the
world unchanged, so the dropped statement is not resurrected. -/
theorem C7_named_execute_after_drop (w : World) (c : ConnState) (nm : String)
    (args : List SQLValue) (hconn : w.conn = some c) :
    ExecuteNamed (ReleaseStatement w nm) nm args
      = ⟨Except.error ExecError.NotFoundError, 0, ReleaseStatement w nm⟩ := by
  have hfind : (c.registry.filter (fun kv => !(kv.1 == nm))).find?
      (fun kv => kv.1 == nm) = none := by
    apply List.find?_eq_none.mpr
    intro x hx
    have hnx := (List.mem_filter.mp hx).2
    simp at hnx ⊢
    exact hnx
  simp [ExecuteNamed, ReleaseStatement, hconn, hfind]

/-- C7 witness: after releasing the registered name p1, named execution of
p1 fails with the not-found error and the world is unchanged. -/
theorem C7_witness :
    ExecuteNamed (ReleaseStatement wEx7 ("p1")) ("p1") [SQLValue.vint 12]
      = ⟨Except.error ExecError.NotFoundError, 0, ReleaseStatement wEx7 ("p1")⟩ :=
  C7_named_execute_after_drop wEx7 connEx7 ("p1") [SQLValue.vint 12] rfl
